import Mathlib

/-!
Verification of the pagination, sorting and dynamic-filter extension of the
GraphQL connection layer in django_utils/graphql/django_connection.py
(class DEDjangoConnectionField), together with the string converters from
graphene.utils.str_converters that it calls.
-/

namespace DjangoUtils

/-! ### graphene.utils.str_converters

The repository calls to_snake_case and to_camel_case from graphene.
to_snake_case is two regular-expression substitutions followed by lower():
first re.sub with pattern dot, then uppercase letter, then a nonempty greedy
run of lowercase letters, inserting an underscore after the leading dot;
second re.sub inserting an underscore between a lowercase letter or digit
and an uppercase letter.  Both passes scan left to right and resume after
each match, exactly as re.sub does. -/

/-- ASCII lowercase test, matching the regex class for a to z. -/
def isLowerAZ (c : Char) : Bool := 97 ≤ c.toNat && c.toNat ≤ 122

/-- ASCII uppercase test, matching the regex class for A to Z. -/
def isUpperAZ (c : Char) : Bool := 65 ≤ c.toNat && c.toNat ≤ 90

/-- ASCII digit test, matching the regex class for 0 to 9. -/
def isDigit09 (c : Char) : Bool := 48 ≤ c.toNat && c.toNat ≤ 57

/-- First pass of to_snake_case, fuelled so that it is structurally
recursive: at each position, if the current character (which the regex dot
does not allow to be a newline) is followed by an uppercase letter and then
at least one lowercase letter, insert an underscore after the current
character, keep the uppercase letter and the maximal lowercase run, and
resume scanning after the run. -/
def pass1Go : Nat → List Char → List Char
  | 0, l => l
  | _, [] => []
  | _, [c] => [c]
  | fuel + 1, c :: d :: rest =>
    if c != Char.ofNat 10 && isUpperAZ d && (rest.headD d |> isLowerAZ) && rest != [] then
      c :: '_' :: d :: (rest.takeWhile isLowerAZ ++ pass1Go fuel (rest.dropWhile isLowerAZ))
    else
      c :: pass1Go fuel (d :: rest)

/-- First regex pass of to_snake_case. -/
def pass1 (l : List Char) : List Char := pass1Go l.length l

/-- Second regex pass of to_snake_case: insert an underscore between a
lowercase letter or digit and an uppercase letter, resuming after each
match. -/
def pass2 : List Char → List Char
  | [] => []
  | [c] => [c]
  | c :: d :: rest =>
    if (isLowerAZ c || isDigit09 c) && isUpperAZ d then
      c :: '_' :: d :: pass2 rest
    else
      c :: pass2 (d :: rest)

/-- graphene.utils.str_converters.to_snake_case: the two regex passes
followed by lowercasing every character. -/
def to_snake_case (s : String) : String :=
  String.mk ((pass2 (pass1 s.data)).map Char.toLower)

/-- Python str.capitalize (on the ASCII strings appearing here): first
character uppercased, all remaining characters lowercased. -/
def pyCapitalize (s : String) : String :=
  match s.data with
  | [] => ""
  | c :: rest => String.mk (Char.toUpper c :: rest.map Char.toLower)

/-- Python str.split on a single underscore separator, keeping empty
components, always returning at least one component. -/
def splitUnderscore : List Char → List (List Char)
  | [] => [[]]
  | c :: rest =>
    let comps := splitUnderscore rest
    if c = '_' then [] :: comps
    else (c :: comps.headD []) :: comps.tail

/-- graphene.utils.str_converters.to_camel_case: split on underscores, keep
the first component, capitalize each later nonempty component, and render
each later empty component as a literal underscore. -/
def to_camel_case (s : String) : String :=
  match (splitUnderscore s.data).map String.mk with
  | [] => ""
  | c0 :: comps =>
    c0 ++ String.join (comps.map fun x => if x = "" then "_" else pyCapitalize x)

/-! ### DEDjangoConnectionField.convert_field_lookup -/

/-- Python str.rsplit with separator underscore and maxsplit 1: the second
component is the segment after the last underscore when one exists. -/
def rsplitUnderscoreOnce : List Char → List Char × Option (List Char)
  | [] => ([], none)
  | c :: rest =>
    match rsplitUnderscoreOnce rest with
    | (h, some t) => (c :: h, some t)
    | (h, none) => if c = '_' then ([], some h) else (c :: h, none)

/-- Modelled from the spec: the registry of valid lookup-path suffixes
returned by models.Field.get_lookups() in Django (the spec lists it among
external collaborators as a registry of equality, containment and
comparison operators); Django is not part of src/.  These are the lookups
Django registers on the base Field class. -/
def field_lookups : List String :=
  ["exact", "iexact", "gt", "gte", "lt", "lte", "in", "contains",
   "icontains", "startswith", "istartswith", "endswith", "iendswith",
   "range", "isnull", "regex", "iregex"]

/-- django.db.models.constants.LOOKUP_SEP. -/
def LOOKUP_SEP : String := "__"

/-- DEDjangoConnectionField.convert_field_lookup, parameterized by the
lookup registry that the source reads from models.Field.get_lookups().
Split on the last underscore; with no underscore, snake-case the whole
string; if the tail is among the capitalized lookups, snake-case head and
tail separately and join them with LOOKUP_SEP (the join of the two-element
list is written as direct concatenation); otherwise snake-case the whole
string. -/
def convert_field_lookup (lookups : List String) (field_lookup : String) : String :=
  let incoming_lookups := lookups.map pyCapitalize
  match rsplitUnderscoreOnce field_lookup.data with
  | (_, none) => to_snake_case field_lookup
  | (head, some tail) =>
    if String.mk tail ∈ incoming_lookups then
      to_snake_case (String.mk head) ++ LOOKUP_SEP ++ to_snake_case (String.mk tail)
    else
      to_snake_case field_lookup

/-! ### Errors and filter extraction -/

/-- The exception class raised by the connection field, from
django_utils/graphql/errors.py: a plain exception carrying a message. -/
structure GraphQLError where
  message : String
deriving DecidableEq

/-- A single-quote character, used by the invalid-filter message. -/
def sq : String := String.singleton (Char.ofNat 39)

/-- The message format used by extract_filter_kwargs for an unknown filter
field: it names the original key, the parsed lookup, and the valid filter
names converted back to camelCase and joined with commas. -/
def invalidFilterMessage (original field : String) (filtering_args : List String) : String :=
  "Invalid filter field lookup " ++ sq ++ original ++ sq ++
    " (parsed to " ++ sq ++ field ++ sq ++
    ") encountered. Valid field lookups are: " ++
    String.intercalate ", " (filtering_args.map to_camel_case)

/-- JSON-like values carried by the filters argument; the extraction logic
treats them opaquely. -/
inductive JValue
  | str : String → JValue
  | boolean : Bool → JValue
deriving DecidableEq

/-- The dynamic-filter branch of DEDjangoConnectionField.extract_filter_kwargs
(the branch taken when a filters argument is present): walk the provided
filter entries in order, translate each key with convert_field_lookup,
raise a GraphQLError at the first translated key that is not among the
valid filtering argument names, and otherwise map each translated key to
its untouched value.  The built dict is represented as an association list
in insertion order. -/
def extract_dynamic_filters {V : Type} (lookups : List String)
    (filters : List (String × V)) (filtering_args : List String) :
    Except GraphQLError (List (String × V)) :=
  match filters with
  | [] => .ok []
  | (field_lookup, lookup_value) :: rest =>
    let django_field_lookup := convert_field_lookup lookups field_lookup
    if django_field_lookup ∈ filtering_args then
      match extract_dynamic_filters lookups rest filtering_args with
      | .error e => .error e
      | .ok acc => .ok ((django_field_lookup, lookup_value) :: acc)
    else
      .error ⟨invalidFilterMessage field_lookup django_field_lookup filtering_args⟩

/-! ### Pagination: the jump_to_page logic of connection_resolver -/

/-- An opaque pagination cursor; graphql_relay.offset_to_cursor encodes an
integer offset, and nothing in the code under verification inspects the
encoding, so the cursor is modelled as the offset it carries. -/
structure Cursor where
  offset : Int
deriving DecidableEq

/-- graphql_relay.connection.arrayconnection.offset_to_cursor. -/
def offset_to_cursor (n : Int) : Cursor := ⟨n⟩

/-- Python truthiness of an optional integer argument: absent and zero are
falsy, every other value is truthy. -/
def truthyInt : Option Int → Bool
  | none => false
  | some v => v != 0

/-- Python or between two optional integers: the first when truthy,
otherwise the second. -/
def pyOr (a b : Option Int) : Option Int := if truthyInt a then a else b

/-- The pagination-relevant connection arguments. -/
structure PageArgs where
  jump_to_page : Option Int
  first : Option Int
  last : Option Int
  after : Option Cursor
deriving DecidableEq

/-- The error message raised when jump_to_page is given without a page
size, formatted with the field name of the connection. -/
def pageSizeErrorMessage (fieldName : String) : String :=
  "You must provide a `first` or `last` value to properly paginate the `" ++
    fieldName ++ "` connection."

/-- The jump_to_page logic of DEDjangoConnectionField.connection_resolver:
when jump_to_page is truthy, require a truthy first or last, compute
offset as page size times (jump_to_page minus one), minus one, and store it
as the after cursor; when jump_to_page is falsy the arguments pass through
unchanged. -/
def connectionPageJump (fieldName : String) (args : PageArgs) : Except GraphQLError PageArgs :=
  if truthyInt args.jump_to_page then
    if !truthyInt (pyOr args.first args.last) then
      .error ⟨pageSizeErrorMessage fieldName⟩
    else
      let page_size := pyOr args.first args.last
      if truthyInt page_size then
        let ps := page_size.getD 0
        let jtp := args.jump_to_page.getD 0
        .ok { args with after := some (offset_to_cursor (ps * (jtp - 1) - 1)) }
      else
        .ok args
  else
    .ok args

/-! ### The result-set abstraction and the sort logic -/

/-- Modelled from the spec: the external result-set abstraction supporting
ordering by field list (a Django queryset).  It is a list of rows together
with the ordering key list currently applied to it; Django is not part of
src/. -/
structure QuerySet (α : Type) where
  rows : List α
  ordering : List String
deriving DecidableEq

/-- Modelled from the spec: QuerySet.order_by replaces the previous
ordering with the given key list. -/
def QuerySet.order_by {α : Type} (qs : QuerySet α) (keys : List String) : QuerySet α :=
  { qs with ordering := keys }

/-- Python truthiness of the optional sort argument: absent and empty are
falsy. -/
def truthyList : Option (List String) → Bool
  | none => false
  | some [] => false
  | some (_ :: _) => true

/-- The resolver wrapper built by connection_resolver when a sort is
requested: call the original resolver; when it returns no result, return
the (already ordered) default manager; otherwise re-apply the ordering to
the returned result set. -/
def wrappedResolver {α ι : Type} (order : List String) (default_manager : QuerySet α)
    (resolver : ι → Option (QuerySet α)) : ι → QuerySet α :=
  fun x =>
    match resolver x with
    | none => default_manager
    | some queryset => queryset.order_by order

/-- The sort logic of DEDjangoConnectionField.connection_resolver: when the
sort argument is truthy, snake-case each sort key, order the default
manager by the resulting keys, and wrap the resolver so that the ordering
is applied to whatever result set reaches the downstream resolver; when
the sort argument is falsy, the default manager and the resolver pass
through unchanged. -/
def applySort {α ι : Type} (sort : Option (List String)) (default_manager : QuerySet α)
    (resolver : ι → Option (QuerySet α)) : QuerySet α × (ι → Option (QuerySet α)) :=
  if truthyList sort then
    let order := (sort.getD []).map to_snake_case
    let dm := default_manager.order_by order
    (dm, fun x => some (wrappedResolver order dm resolver x))
  else
    (default_manager, resolver)

/-! ### Downstream consumption of the after cursor -/

/-- Modelled from the spec: the downstream connection resolver consumes an
after cursor as a position in the ordered result set and returns the
records strictly after it; zero or negative offsets denote a position
before the first record (graphql_relay starts the slice at the cursor
offset plus one, clamped at zero; graphql_relay is not part of src/). -/
def sliceAfter {α : Type} (after : Option Cursor) (rows : List α) : List α :=
  match after with
  | none => rows
  | some c => rows.drop (max (c.offset + 1) 0).toNat

/-- Modelled from the spec: the downstream connection resolver keeps the
first n records when a first argument is given. -/
def applyFirst {α : Type} (first : Option Int) (rows : List α) : List α :=
  match first with
  | none => rows
  | some f => rows.take (max f 0).toNat

/-- Modelled from the spec: the downstream connection resolver keeps the
last n records when a last argument is given. -/
def applyLast {α : Type} (last : Option Int) (rows : List α) : List α :=
  match last with
  | none => rows
  | some l => rows.drop (rows.length - (max l 0).toNat)

/-- Modelled from the spec: the downstream page construction, after the
jump_to_page translation has run: slice past the after cursor, then apply
first, then last. -/
def paginate {α : Type} (args : PageArgs) (rows : List α) : List α :=
  applyLast args.last (applyFirst args.first (sliceAfter args.after rows))

/-- A connection resolution restricted to pagination: run the jump_to_page
translation of connection_resolver, then hand the resulting arguments to
the downstream page construction. -/
def resolveConnection {α : Type} (fieldName : String) (args : PageArgs)
    (rows : List α) : Except GraphQLError (List α) :=
  match connectionPageJump fieldName args with
  | .error e => .error e
  | .ok args2 => .ok (paginate args2 rows)

/-- Decidable equality for Except values, used to evaluate concrete runs of
the fallible operations. -/
instance {ε α : Type} [DecidableEq ε] [DecidableEq α] : DecidableEq (Except ε α) := fun a b =>
  match a, b with
  | .error e, .error f => decidable_of_iff (e = f) (by simp)
  | .error _, .ok _ => isFalse (by simp)
  | .ok _, .error _ => isFalse (by simp)
  | .ok x, .ok y => decidable_of_iff (x = y) (by simp)

/-! ### Helper lemmas about the last-underscore split -/

/-- On a character list containing no underscore, the rsplit finds no
separator. -/
theorem rsplitUnderscoreOnce_no_sep (l : List Char) (h : ∀ c ∈ l, c ≠ '_') :
    rsplitUnderscoreOnce l = (l, none) := by
  induction l with
  | nil => rfl
  | cons c rest ih =>
    have hrest : ∀ x ∈ rest, x ≠ '_' := fun x hx => h x (List.mem_cons_of_mem _ hx)
    have hc : c ≠ '_' := h c (List.mem_cons_self _ _)
    simp [rsplitUnderscoreOnce, ih hrest, hc]

/-- When the input is a head, an underscore, and a tail free of
underscores, the rsplit returns exactly that head and tail. -/
theorem rsplitUnderscoreOnce_append (head tail : List Char) (h : ∀ c ∈ tail, c ≠ '_') :
    rsplitUnderscoreOnce (head ++ '_' :: tail) = (head, some tail) := by
  induction head with
  | nil => simp [rsplitUnderscoreOnce, rsplitUnderscoreOnce_no_sep tail h]
  | cons c hd ih => simp [rsplitUnderscoreOnce, ih]

/-- Branch characterization of convert_field_lookup on an input of the form
head, underscore, tail with no underscore in the tail: the lookup branch is
taken exactly when the tail is literally among the capitalized lookups. -/
theorem convert_field_lookup_split (lookups : List String) (head tail : List Char)
    (h : ∀ c ∈ tail, c ≠ '_') :
    convert_field_lookup lookups (String.mk (head ++ '_' :: tail)) =
      if String.mk tail ∈ lookups.map pyCapitalize then
        to_snake_case (String.mk head) ++ LOOKUP_SEP ++ to_snake_case (String.mk tail)
      else
        to_snake_case (String.mk (head ++ '_' :: tail)) := by
  have hd : (String.mk (head ++ '_' :: tail)).data = head ++ '_' :: tail := rfl
  unfold convert_field_lookup
  rw [hd, rsplitUnderscoreOnce_append head tail h]

/-! ### Claim C1 -/

/-- C1 counterexample: the suffix ICONTAINS differs from the registered
lookup icontains only in letter case, yet convert_field_lookup does not
take the lookup-suffix interpretation for it: the result keeps a single
underscore instead of the claimed double-underscore join. -/
theorem convert_field_lookup_case_insensitive_false :
    ("ICONTAINS".data.map Char.toLower = "icontains".data ∧ "icontains" ∈ field_lookups) ∧
    (∀ c ∈ "ICONTAINS".data, c ≠ '_') ∧
    to_snake_case (String.mk "reportName".data) ++ "__" ++ to_snake_case (String.mk "ICONTAINS".data) =
      "report_name__icontains" ∧
    convert_field_lookup field_lookups (String.mk ("reportName".data ++ '_' :: "ICONTAINS".data)) ≠
      to_snake_case (String.mk "reportName".data) ++ "__" ++ to_snake_case (String.mk "ICONTAINS".data) ∧
    convert_field_lookup field_lookups "reportName_ICONTAINS" = "report_name_icontains" := by
  decide

/-- C1 amended: on input head, underscore, tail (tail free of underscores),
the lookup-suffix interpretation is taken if and only if the tail is
literally the capitalized form (first letter uppercased, remainder
lowercased) of a registered lookup; other case variants of a lookup are
treated as part of a plain field name and the whole string is
snake-cased. -/
theorem convert_field_lookup_branches (lookups : List String) (head tail : List Char)
    (h : ∀ c ∈ tail, c ≠ '_') :
    convert_field_lookup lookups (String.mk (head ++ '_' :: tail)) =
      if String.mk tail ∈ lookups.map pyCapitalize then
        to_snake_case (String.mk head) ++ "__" ++ to_snake_case (String.mk tail)
      else
        to_snake_case (String.mk (head ++ '_' :: tail)) := by
  rw [convert_field_lookup_split lookups head tail h]
  rfl

/-- C1 amended witness at a concrete input. -/
theorem convert_field_lookup_branches_witness :
    (∀ c ∈ "Icontains".data, c ≠ '_') ∧
    convert_field_lookup field_lookups (String.mk ("reportName".data ++ '_' :: "Icontains".data)) =
      (if String.mk "Icontains".data ∈ field_lookups.map pyCapitalize then
        to_snake_case (String.mk "reportName".data) ++ "__" ++ to_snake_case (String.mk "Icontains".data)
      else
        to_snake_case (String.mk ("reportName".data ++ '_' :: "Icontains".data))) :=
  ⟨by decide, convert_field_lookup_branches field_lookups "reportName".data "Icontains".data (by decide)⟩

/-! ### Claim C6 -/

/-- C6: whenever the segment after the last underscore equals a registered
lookup keyword in capitalized form, convert_field_lookup returns the
snake-cased head joined to the snake-cased suffix by a double underscore;
in particular reportName_Icontains maps to report_name__icontains. -/
theorem convert_field_lookup_suffix (lookups : List String) (head tail : List Char)
    (h : ∀ c ∈ tail, c ≠ '_')
    (hmem : String.mk tail ∈ lookups.map pyCapitalize) :
    convert_field_lookup lookups (String.mk (head ++ '_' :: tail)) =
      to_snake_case (String.mk head) ++ "__" ++ to_snake_case (String.mk tail) ∧
    convert_field_lookup field_lookups "reportName_Icontains" = "report_name__icontains" := by
  refine ⟨?_, by decide⟩
  rw [convert_field_lookup_split lookups head tail h, if_pos hmem]
  rfl

/-- C6 witness at the concrete fixture input. -/
theorem convert_field_lookup_suffix_witness :
    (∀ c ∈ "Icontains".data, c ≠ '_') ∧
    String.mk "Icontains".data ∈ field_lookups.map pyCapitalize ∧
    (convert_field_lookup field_lookups (String.mk ("reportName".data ++ '_' :: "Icontains".data)) =
      to_snake_case (String.mk "reportName".data) ++ "__" ++ to_snake_case (String.mk "Icontains".data) ∧
    convert_field_lookup field_lookups "reportName_Icontains" = "report_name__icontains") :=
  ⟨by decide, by decide,
    convert_field_lookup_suffix field_lookups "reportName".data "Icontains".data
      (by decide) (by decide)⟩

/-! ### Claim C7 -/

/-- C7: with no underscore in the input, convert_field_lookup snake-cases
the whole string; with a last segment that is not a registered lookup
suffix, it also snake-cases the whole string; and the four literal fixture
pairs from the test suite evaluate as recorded. -/
theorem convert_field_lookup_whole (lookups : List String) (s : String)
    (head tail : List Char)
    (hs : ∀ c ∈ s.data, c ≠ '_')
    (ht : ∀ c ∈ tail, c ≠ '_')
    (hmem : String.mk tail ∉ lookups.map pyCapitalize) :
    convert_field_lookup lookups s = to_snake_case s ∧
    convert_field_lookup lookups (String.mk (head ++ '_' :: tail)) =
      to_snake_case (String.mk (head ++ '_' :: tail)) ∧
    convert_field_lookup field_lookups "prefab" = "prefab" ∧
    convert_field_lookup field_lookups "partner_Name_Icontains" = "partner__name__icontains" ∧
    convert_field_lookup field_lookups "partner_Name" = "partner__name" ∧
    convert_field_lookup field_lookups "partner_OutreachTags" = "partner__outreach_tags" := by
  refine ⟨?_, ?_, by decide, by decide, by decide, by decide⟩
  · unfold convert_field_lookup
    rw [rsplitUnderscoreOnce_no_sep s.data hs]
  · rw [convert_field_lookup_split lookups head tail ht, if_neg hmem]

/-- C7 witness at concrete fixture inputs. -/
theorem convert_field_lookup_whole_witness :
    (∀ c ∈ "prefab".data, c ≠ '_') ∧
    (∀ c ∈ "OutreachTags".data, c ≠ '_') ∧
    String.mk "OutreachTags".data ∉ field_lookups.map pyCapitalize ∧
    (convert_field_lookup field_lookups "prefab" = to_snake_case "prefab" ∧
    convert_field_lookup field_lookups (String.mk ("partner".data ++ '_' :: "OutreachTags".data)) =
      to_snake_case (String.mk ("partner".data ++ '_' :: "OutreachTags".data)) ∧
    convert_field_lookup field_lookups "prefab" = "prefab" ∧
    convert_field_lookup field_lookups "partner_Name_Icontains" = "partner__name__icontains" ∧
    convert_field_lookup field_lookups "partner_Name" = "partner__name" ∧
    convert_field_lookup field_lookups "partner_OutreachTags" = "partner__outreach_tags") :=
  ⟨by decide, by decide, by decide,
    convert_field_lookup_whole field_lookups "prefab" "partner".data "OutreachTags".data
      (by decide) (by decide) (by decide)⟩

/-! ### Claim C2 -/

/-- C2: when some provided filter key translates to a name outside the
valid filtering arguments, extraction raises a GraphQLError whose message
names the offending field (original and parsed forms) and lists every
valid name converted back to camelCase; the error is the result of the
call, never swallowed. -/
theorem extract_dynamic_filters_invalid {V : Type} (lookups : List String)
    (filters : List (String × V)) (filtering_args : List String)
    (h : ∃ kv ∈ filters, convert_field_lookup lookups kv.1 ∉ filtering_args) :
    ∃ orig, orig ∈ filters.map Prod.fst ∧
      convert_field_lookup lookups orig ∉ filtering_args ∧
      extract_dynamic_filters lookups filters filtering_args =
        .error ⟨invalidFilterMessage orig (convert_field_lookup lookups orig) filtering_args⟩ := by
  induction filters with
  | nil => simp at h
  | cons kv rest ih =>
    obtain ⟨k, v⟩ := kv
    by_cases hk : convert_field_lookup lookups k ∈ filtering_args
    · have hrest : ∃ kv ∈ rest, convert_field_lookup lookups kv.1 ∉ filtering_args := by
        obtain ⟨kv2, hkv2, hnot⟩ := h
        rcases List.mem_cons.mp hkv2 with rfl | hmem
        · exact absurd hk hnot
        · exact ⟨kv2, hmem, hnot⟩
      obtain ⟨orig, horig, hnot, heq⟩ := ih hrest
      exact ⟨orig, by simp [horig], hnot, by simp [extract_dynamic_filters, hk, heq]⟩
    · exact ⟨k, by simp, hk, by simp [extract_dynamic_filters, hk]⟩

/-- C2 witness at a concrete invalid input. -/
theorem extract_dynamic_filters_invalid_witness :
    (∃ kv ∈ [("bogusField", JValue.str "x")],
      convert_field_lookup field_lookups kv.1 ∉ ["name__icontains", "enabled"]) ∧
    (∃ orig, orig ∈ [("bogusField", JValue.str "x")].map Prod.fst ∧
      convert_field_lookup field_lookups orig ∉ ["name__icontains", "enabled"] ∧
      extract_dynamic_filters field_lookups [("bogusField", JValue.str "x")]
          ["name__icontains", "enabled"] =
        .error ⟨invalidFilterMessage orig (convert_field_lookup field_lookups orig)
          ["name__icontains", "enabled"]⟩) :=
  ⟨by decide,
    extract_dynamic_filters_invalid field_lookups [("bogusField", JValue.str "x")]
      ["name__icontains", "enabled"] (by decide)⟩

/-! ### Claim C8 -/

/-- C8: when every provided filter key translates to a valid filtering
argument name, extraction succeeds and maps each translated key to its
original value, with every value passed through unmodified and the entry
order preserved. -/
theorem extract_dynamic_filters_valid {V : Type} (lookups : List String)
    (filters : List (String × V)) (filtering_args : List String)
    (h : ∀ kv ∈ filters, convert_field_lookup lookups kv.1 ∈ filtering_args) :
    extract_dynamic_filters lookups filters filtering_args =
      .ok (filters.map fun kv => (convert_field_lookup lookups kv.1, kv.2)) := by
  induction filters with
  | nil => rfl
  | cons kv rest ih =>
    obtain ⟨k, v⟩ := kv
    have hk := h (k, v) (List.mem_cons_self _ _)
    have hr := ih fun kv2 h2 => h kv2 (List.mem_cons_of_mem _ h2)
    simp [extract_dynamic_filters, hk, hr]

/-- C8 witness: the concrete example from the spec, with values bob and
true carried through unmodified. -/
theorem extract_dynamic_filters_valid_witness :
    (∀ kv ∈ [("name_Icontains", JValue.str "bob"), ("enabled", JValue.boolean true)],
      convert_field_lookup field_lookups kv.1 ∈ ["name__icontains", "enabled"]) ∧
    extract_dynamic_filters field_lookups
        [("name_Icontains", JValue.str "bob"), ("enabled", JValue.boolean true)]
        ["name__icontains", "enabled"] =
      .ok [("name__icontains", JValue.str "bob"), ("enabled", JValue.boolean true)] :=
  ⟨by decide,
    (extract_dynamic_filters_valid field_lookups
      [("name_Icontains", JValue.str "bob"), ("enabled", JValue.boolean true)]
      ["name__icontains", "enabled"] (by decide)).trans (by decide)⟩

/-- Shared branch characterization of the page-jump logic for a truthy
jump_to_page value: the page-size check decides between the error and the
offset cursor. -/
theorem connectionPageJump_truthy (fieldName : String) (j : Int)
    (first last : Option Int) (after : Option Cursor) (hj : j ≠ 0) :
    connectionPageJump fieldName ⟨some j, first, last, after⟩ =
      if truthyInt (pyOr first last) then
        .ok ⟨some j, first, last,
          some (offset_to_cursor ((pyOr first last).getD 0 * (j - 1) - 1))⟩
      else
        .error ⟨pageSizeErrorMessage fieldName⟩ := by
  have hjt : truthyInt (some j) = true := by simp [truthyInt, hj]
  cases hps : truthyInt (pyOr first last) <;>
    simp [connectionPageJump, hjt, hps]

/-! ### Claim C3 -/

/-- C3 counterexample: jump_to_page supplied with value zero and neither
first nor last supplied does not fail, contradicting the claim that every
connection resolution with jump_to_page supplied and no page size fails. -/
theorem connectionPageJump_zero_no_error :
    connectionPageJump "items" ⟨some 0, none, none, none⟩ =
      .ok ⟨some 0, none, none, none⟩ := by
  decide

/-- C3 amended: when jump_to_page is supplied with a nonzero value, the
resolver fails with the descriptive page-size error unless first or last
is supplied with a nonzero value, in which case it stores the offset page
size times (jump_to_page minus one), minus one, as the after cursor, the
page size being first when truthy and last otherwise; in particular
jump_to_page three with first ten yields offset nineteen. -/
theorem connectionPageJump_spec (fieldName : String) (j : Int)
    (first last : Option Int) (after : Option Cursor) (hj : j ≠ 0) :
    connectionPageJump fieldName ⟨some j, first, last, after⟩ =
      (if truthyInt (pyOr first last) then
        .ok ⟨some j, first, last,
          some (offset_to_cursor ((pyOr first last).getD 0 * (j - 1) - 1))⟩
      else
        .error ⟨pageSizeErrorMessage fieldName⟩) ∧
    connectionPageJump "items" ⟨some 3, some 10, none, none⟩ =
      .ok ⟨some 3, some 10, none, some (offset_to_cursor 19)⟩ :=
  ⟨connectionPageJump_truthy fieldName j first last after hj, by decide⟩

/-- C3 witness at jump_to_page three, first ten. -/
theorem connectionPageJump_spec_witness :
    ((3 : Int) ≠ 0) ∧
    (connectionPageJump "items" ⟨some 3, some 10, none, none⟩ =
      (if truthyInt (pyOr (some 10) none) then
        .ok ⟨some 3, some 10, none,
          some (offset_to_cursor ((pyOr (some 10) none).getD 0 * (3 - 1) - 1))⟩
      else
        .error ⟨pageSizeErrorMessage "items"⟩) ∧
    connectionPageJump "items" ⟨some 3, some 10, none, none⟩ =
      .ok ⟨some 3, some 10, none, some (offset_to_cursor 19)⟩) :=
  ⟨by decide, connectionPageJump_spec "items" 3 (some 10) none none (by decide)⟩

/-! ### Claim C4 -/

/-- C4 counterexample: with the page size supplied as zero, requesting page
one fails with the page-size error while the cursorless request succeeds
with an empty page, so the two resolutions differ. -/
theorem resolveConnection_pageOne_zero_differs :
    resolveConnection "c" ⟨some 1, some 0, none, none⟩ ([10, 20, 30] : List Nat) =
      .error ⟨pageSizeErrorMessage "c"⟩ ∧
    resolveConnection "c" ⟨none, some 0, none, none⟩ ([10, 20, 30] : List Nat) = .ok [] ∧
    resolveConnection "c" ⟨some 1, some 0, none, none⟩ ([10, 20, 30] : List Nat) ≠
      resolveConnection "c" ⟨none, some 0, none, none⟩ ([10, 20, 30] : List Nat) := by
  decide

/-- C4 amended: with a nonzero page size supplied, requesting page one
resolves to the same result set as supplying no pagination cursor at all:
page one is the identity page under the one-indexed page-jump
translation. -/
theorem resolveConnection_pageOne_identity {α : Type} (fieldName : String)
    (first last : Option Int) (rows : List α)
    (h : truthyInt (pyOr first last) = true) :
    resolveConnection fieldName ⟨some 1, first, last, none⟩ rows =
      resolveConnection fieldName ⟨none, first, last, none⟩ rows := by
  have e1 : connectionPageJump fieldName ⟨some 1, first, last, none⟩ =
      .ok ⟨some 1, first, last,
        some (offset_to_cursor ((pyOr first last).getD 0 * (1 - 1) - 1))⟩ := by
    rw [connectionPageJump_truthy fieldName 1 first last none one_ne_zero]
    simp [h]
  have e2 : connectionPageJump fieldName ⟨none, first, last, none⟩ =
      .ok ⟨none, first, last, none⟩ := rfl
  simp [resolveConnection, e1, e2, paginate, sliceAfter, offset_to_cursor]

/-- C4 witness at first ten over three rows. -/
theorem resolveConnection_pageOne_identity_witness :
    truthyInt (pyOr (some 10) none) = true ∧
    resolveConnection "c" ⟨some 1, some 10, none, none⟩ ([10, 20, 30] : List Nat) =
      resolveConnection "c" ⟨none, some 10, none, none⟩ ([10, 20, 30] : List Nat) :=
  ⟨by decide, resolveConnection_pageOne_identity "c" (some 10) none [10, 20, 30] (by decide)⟩

/-! ### Claim C5 -/

/-- C5: when a nonempty sort is requested, connection_resolver orders the
default manager by the snake-cased keys and wraps any custom per-field
resolver so that a missing result falls back to the ordered default
manager and a returned result set gets the same ordering re-applied; hence
the result set reaching the downstream resolver carries the requested
ordering in all cases. -/
theorem applySort_wraps_resolver {α ι : Type} (order : List String)
    (dm : QuerySet α) (resolver : ι → Option (QuerySet α)) (x : ι)
    (h : order ≠ []) :
    (applySort (some order) dm resolver).1 = dm.order_by (order.map to_snake_case) ∧
    (applySort (some order) dm resolver).2 x =
      some (((resolver x).getD dm).order_by (order.map to_snake_case)) ∧
    (((resolver x).getD dm).order_by (order.map to_snake_case)).ordering =
      order.map to_snake_case := by
  match order with
  | [] => exact absurd rfl h
  | a :: as =>
    cases hr : resolver x <;>
      simp [applySort, truthyList, wrappedResolver, QuerySet.order_by, hr]

/-- A concrete resolver with no result of its own, used by witnesses. -/
def sampleResolver : Nat → Option (QuerySet Nat) := fun _ => none

/-- C5 witness at a concrete sort and resolver. -/
theorem applySort_wraps_resolver_witness :
    (["-createdAt"] ≠ ([] : List String)) ∧
    ((applySort (some ["-createdAt"]) ⟨[1, 2, 3], []⟩ sampleResolver).1 =
      QuerySet.order_by ⟨[1, 2, 3], []⟩ (["-createdAt"].map to_snake_case) ∧
    (applySort (some ["-createdAt"]) ⟨[1, 2, 3], []⟩ sampleResolver).2 0 =
      some (QuerySet.order_by ((sampleResolver 0).getD ⟨[1, 2, 3], []⟩)
        (["-createdAt"].map to_snake_case)) ∧
    (QuerySet.order_by ((sampleResolver 0).getD ⟨[1, 2, 3], []⟩)
        (["-createdAt"].map to_snake_case)).ordering =
      ["-createdAt"].map to_snake_case) :=
  ⟨by decide,
    applySort_wraps_resolver ["-createdAt"] ⟨[1, 2, 3], []⟩ sampleResolver 0 (by decide)⟩

/-! ### Claim C9 -/

/-- C9: applying the same sort specification twice produces the same
default manager and the same wrapped-resolver results as applying it once:
sort application is idempotent, not cumulative. -/
theorem applySort_idempotent {α ι : Type} (sort : Option (List String))
    (dm : QuerySet α) (resolver : ι → Option (QuerySet α)) (x : ι) :
    (applySort sort (applySort sort dm resolver).1 (applySort sort dm resolver).2).1 =
      (applySort sort dm resolver).1 ∧
    (applySort sort (applySort sort dm resolver).1 (applySort sort dm resolver).2).2 x =
      (applySort sort dm resolver).2 x := by
  match sort with
  | none => simp [applySort, truthyList]
  | some [] => simp [applySort, truthyList]
  | some (a :: as) =>
    cases hr : resolver x <;>
      simp [applySort, truthyList, wrappedResolver, QuerySet.order_by, hr]

/-! ### Claim C10 -/

/-- C10: jump_to_page supplied with the value zero is treated as absent:
no missing-page-size error is raised even with first and last both absent,
and the after cursor is left untouched; only truthy values trigger the
page-jump logic. -/
theorem connectionPageJump_zero_passthrough (fieldName : String)
    (first last : Option Int) (after : Option Cursor) :
    connectionPageJump fieldName ⟨some 0, first, last, after⟩ =
      .ok ⟨some 0, first, last, after⟩ := by
  simp [connectionPageJump, truthyInt]

end DjangoUtils
